import Mathlib

/-
Verification of the entry-creation / entry-CRUD flow of the
Biohacking-Optimizer service, as implemented under api/.

The embedding translates:
  - api/utils/model_client.py   (model-service client and its error taxonomy)
  - api/models/db_models.py     (User, DailyEntry, Prediction rows)
  - api/models/schemas.py       (EntryCreate validation, EntryResponse shape)
  - api/routers/entries.py      (create/list/get/update/delete handlers and
                                 the existence/ownership guard)
  - api/auth.py                 (get_current_user identity resolution)

External effects are made explicit: the database is a value of type DB that
handlers take and return, the HTTP transport outcome of the model-service
call is a parameter, and the decode outcome of a bearer token is a parameter.
-/

namespace Biohacking

/-- JSON values, used for model-service response bodies and token claims. -/
inductive Json where
  | null : Json
  | bool (b : Bool) : Json
  | num (q : Rat) : Json
  | str (s : String) : Json
  | arr (elems : List Json) : Json
  | obj (fields : List (String × Json)) : Json

/-- Lookup of a key in a JSON object field list (Python dict access). -/
def jsonObjLookup (fields : List (String × Json)) (key : String) : Option Json :=
  match fields with
  | [] => none
  | (k, v) :: rest => if k = key then some v else jsonObjLookup rest key

/-- Lookup of a key in a JSON value; non-objects hold no keys. -/
def jsonLookupKey (j : Json) (key : String) : Option Json :=
  match j with
  | .obj fields => jsonObjLookup fields key
  | _ => none

/-- Error taxonomy of api/utils/model_client.py: the four concrete
subclasses of ModelServiceError, each carrying its message. -/
inductive ModelServiceError where
  | configError (msg : String)
  | timeoutError (msg : String)
  | connectionError (msg : String)
  | responseError (msg : String)
deriving DecidableEq

/-- Outcome of the HTTP POST performed inside call_model_service:
a timeout, a connect error, another transport error, or a response with a
status code and a body (none models a body that is not valid JSON). -/
inductive HttpOutcome where
  | timeout : HttpOutcome
  | connectError : HttpOutcome
  | otherRequestError : HttpOutcome
  | response (status_code : Nat) (body : Option Json) : HttpOutcome

/-- Python rstrip of the slash character, as in base_url.rstrip applied
to the slash in get_model_service_url. -/
def rstripSlashes (s : String) : String :=
  String.mk ((s.data.reverse.dropWhile (fun c => c = '/')).reverse)

/-- get_model_service_url of api/utils/model_client.py: the env parameter is
the value of the MODEL_SERVICE_URL environment variable (none when unset);
an unset or empty value raises ModelServiceConfigError. -/
def get_model_service_url (env : Option String) : Except ModelServiceError String :=
  match env with
  | none =>
      .error (.configError "MODEL_SERVICE_URL environment variable is required.")
  | some base_url =>
      if base_url = "" then
        .error (.configError "MODEL_SERVICE_URL environment variable is required.")
      else
        .ok (rstripSlashes base_url)

/-- call_model_service of api/utils/model_client.py. The entry_data mapping
is the JSON body sent to the service; the outcome parameter is what the
HTTP transport did for this invocation. -/
def call_model_service (env : Option String) (entry_data : List (String × Json))
    (outcome : HttpOutcome) : Except ModelServiceError Json :=
  match get_model_service_url env with
  | .error e => .error e
  | .ok _base =>
      match outcome with
      | .timeout => .error (.timeoutError "Model Service request timed out.")
      | .connectError => .error (.connectionError "Failed to connect to Model Service.")
      | .otherRequestError => .error (.connectionError "Model Service request failed.")
      | .response status_code body =>
          if status_code ≠ 200 then
            .error (.responseError
              ("Model Service returned status " ++ toString status_code ++ "."))
          else
            match body with
            | none => .error (.responseError "Model Service returned invalid JSON.")
            | some payload =>
                match payload with
                | .obj fields =>
                    if (jsonObjLookup fields "prediction").isNone
                        || (jsonObjLookup fields "recommendation").isNone then
                      .error (.responseError
                        "Model Service response missing prediction or recommendation.")
                    else
                      .ok (.obj fields)
                | _ =>
                    .error (.responseError
                      "Model Service response must be a JSON object.")

/-- Whitespace test used by the Python str.strip method. -/
def isSpaceChar (c : Char) : Bool :=
  c = ' ' || c = '\t' || c = '\n' || c = '\r'

/-- Python str.strip: drop leading and trailing whitespace. -/
def pyStrip (s : String) : String :=
  String.mk (((s.data.dropWhile isSpaceChar).reverse.dropWhile isSpaceChar).reverse)

/-- users row of api/models/db_models.py (timestamps as abstract ticks). -/
structure User where
  id : Nat
  email : String
  hashed_password : String
  created_at : Nat
  updated_at : Nat
deriving DecidableEq

/-- daily_entries row of api/models/db_models.py. Calendar dates are encoded
as naturals whose order is the calendar order; float columns are rationals. -/
structure DailyEntry where
  id : Nat
  user_id : Nat
  date : Nat
  sleep_hours : Rat
  workout_intensity : String
  supplement_intake : Option String
  screen_time : Rat
  stress_level : Int
  created_at : Nat
deriving DecidableEq

/-- predictions row of api/models/db_models.py (source column names). -/
structure Prediction where
  id : Nat
  user_id : Nat
  daily_entry_id : Nat
  prediction_score : Rat
  recommendations : String
  created_at : Nat
deriving DecidableEq

/-- Relational store: the three tables, the autoincrement counter for
daily_entries, and the clock used for server-side created_at defaults. -/
structure DB where
  users : List User
  entries : List DailyEntry
  predictions : List Prediction
  next_entry_id : Nat
  now : Nat
deriving DecidableEq

/-- EntryCreate of api/models/schemas.py (the request payload fields). -/
structure EntryCreate where
  sleep_hours : Rat
  workout_intensity : String
  supplement_intake : Option String
  screen_time : Rat
  stress_level : Int
  date : Nat
deriving DecidableEq

/-- EntryResponse of api/models/schemas.py (the response echo shape). -/
structure EntryResponse where
  id : Nat
  sleep_hours : Rat
  workout_intensity : String
  supplement_intake : Option String
  screen_time : Rat
  stress_level : Int
  date : Nat
deriving DecidableEq

/-- Conjunction of the EntryCreate field validators of api/models/schemas.py:
sleep_hours and screen_time in the closed range 0 to 24, workout_intensity
nonempty after strip, supplement_intake nonempty after strip when provided,
stress_level between 1 and 10. -/
def entryCreateValid (p : EntryCreate) : Bool :=
  (decide (0 ≤ p.sleep_hours) && decide (p.sleep_hours ≤ 24)) &&
  (!(pyStrip p.workout_intensity == "")) &&
  (match p.supplement_intake with
   | none => true
   | some s => !(pyStrip s == "")) &&
  (decide (0 ≤ p.screen_time) && decide (p.screen_time ≤ 24)) &&
  (decide (1 ≤ p.stress_level) && decide (p.stress_level ≤ 10))

/-- Serialization of a DailyEntry row through EntryResponse. -/
def entryToResponse (e : DailyEntry) : EntryResponse :=
  { id := e.id
    sleep_hours := e.sleep_hours
    workout_intensity := e.workout_intensity
    supplement_intake := e.supplement_intake
    screen_time := e.screen_time
    stress_level := e.stress_level
    date := e.date }

/-- FastAPI HTTPException: a status code and a detail message. -/
structure HTTPException where
  status_code : Nat
  detail : String
deriving DecidableEq

/-- The 404 exception raised by the existence guard in api/routers/entries.py. -/
def entryNotFoundExc : HTTPException :=
  { status_code := 404, detail := "Entry not found" }

/-- The 403 exception raised by the ownership guard in api/routers/entries.py. -/
def notOwnerExc : HTTPException :=
  { status_code := 403, detail := "Not authorized to access this entry" }

/-- The 401 exception built by api/auth.py. -/
def unauthorized_exception : HTTPException :=
  { status_code := 401, detail := "Could not validate credentials" }

/-- Existence guard of api/routers/entries.py: first row whose id matches,
else HTTP 404. -/
def get_entry_or_404 (entry_id : Nat) (db : DB) : Except HTTPException DailyEntry :=
  match db.entries.find? (fun e => e.id == entry_id) with
  | none => .error entryNotFoundExc
  | some entry => .ok entry

/-- Ownership guard of api/routers/entries.py: HTTP 403 when the row is not
owned by the current user. -/
def ensure_owner (entry : DailyEntry) (current_user : User) : Except HTTPException Unit :=
  if entry.user_id ≠ current_user.id then .error notOwnerExc else .ok ()

/-- The DailyEntry row that create_entry constructs: payload fields, the
id of the current user, a fresh primary key, and the server-side clock. -/
def newEntryRow (payload : EntryCreate) (current_user : User) (db : DB) : DailyEntry :=
  { id := db.next_entry_id
    user_id := current_user.id
    date := payload.date
    sleep_hours := payload.sleep_hours
    workout_intensity := payload.workout_intensity
    supplement_intake := payload.supplement_intake
    screen_time := payload.screen_time
    stress_level := payload.stress_level
    created_at := db.now }

/-- create_entry of api/routers/entries.py: insert one DailyEntry row owned
by the current user, commit, and answer 201 echoing the row. Nothing else
happens: no model-service call and no Prediction row. -/
def create_entry (payload : EntryCreate) (current_user : User) (db : DB) :
    DB × Nat × EntryResponse :=
  let entry := newEntryRow payload current_user db
  ({ db with
      entries := db.entries ++ [entry]
      next_entry_id := db.next_entry_id + 1 },
   201, entryToResponse entry)

/-- Ordering used by the list_entries query: date ascending, id ascending
as the tie-break. -/
def entryLe (a b : DailyEntry) : Prop :=
  a.date < b.date ∨ (a.date = b.date ∧ a.id ≤ b.id)

instance entryLeDecidable : DecidableRel entryLe := fun a b =>
  inferInstanceAs (Decidable (a.date < b.date ∨ (a.date = b.date ∧ a.id ≤ b.id)))

instance entryLeTotal : IsTotal DailyEntry entryLe :=
  ⟨fun a b => by unfold entryLe; omega⟩

instance entryLeTrans : IsTrans DailyEntry entryLe :=
  ⟨fun a b c hab hbc => by unfold entryLe at hab hbc ⊢; omega⟩

/-- list_entries of api/routers/entries.py: rows of the current user,
ordered by date ascending then id ascending. -/
def list_entries (current_user : User) (db : DB) : List DailyEntry :=
  List.insertionSort entryLe (db.entries.filter (fun e => e.user_id == current_user.id))

/-- get_entry of api/routers/entries.py: existence guard, then ownership
guard, then the row. -/
def get_entry (entry_id : Nat) (current_user : User) (db : DB) :
    Except HTTPException DailyEntry :=
  match get_entry_or_404 entry_id db with
  | .error e => .error e
  | .ok entry =>
      match ensure_owner entry current_user with
      | .error e => .error e
      | .ok _ => .ok entry

/-- The setattr loop of update_entry: overwrite exactly the EntryCreate
payload fields of a row, leaving id, user_id and created_at alone. -/
def applyEntryCreate (payload : EntryCreate) (e : DailyEntry) : DailyEntry :=
  { e with
    sleep_hours := payload.sleep_hours
    workout_intensity := payload.workout_intensity
    supplement_intake := payload.supplement_intake
    screen_time := payload.screen_time
    stress_level := payload.stress_level
    date := payload.date }

/-- In-place mutation of the row the query found: rewrite the first row
whose id matches, keep every other row. -/
def updateFirstEntry (entry_id : Nat) (f : DailyEntry → DailyEntry) :
    List DailyEntry → List DailyEntry
  | [] => []
  | x :: xs =>
      if x.id == entry_id then f x :: xs else x :: updateFirstEntry entry_id f xs

/-- update_entry of api/routers/entries.py: guards, then overwrite the
payload fields of the found row and commit, answering the updated row. -/
def update_entry (entry_id : Nat) (payload : EntryCreate) (current_user : User)
    (db : DB) : Except HTTPException (DB × EntryResponse) :=
  match get_entry_or_404 entry_id db with
  | .error e => .error e
  | .ok entry =>
      match ensure_owner entry current_user with
      | .error e => .error e
      | .ok _ =>
          .ok ({ db with
                  entries := updateFirstEntry entry_id (applyEntryCreate payload) db.entries },
               entryToResponse (applyEntryCreate payload entry))

/-- Deletion of the row the query found: drop the first row whose id
matches, keep every other row. -/
def removeFirstEntry (entry_id : Nat) : List DailyEntry → List DailyEntry
  | [] => []
  | x :: xs => if x.id == entry_id then xs else x :: removeFirstEntry entry_id xs

/-- delete_entry of api/routers/entries.py: guards, then delete the row and
answer 204. -/
def delete_entry (entry_id : Nat) (current_user : User) (db : DB) :
    Except HTTPException (DB × Nat) :=
  match get_entry_or_404 entry_id db with
  | .error e => .error e
  | .ok entry =>
      match ensure_owner entry current_user with
      | .error e => .error e
      | .ok _ => .ok ({ db with entries := removeFirstEntry entry_id db.entries }, 204)

/-- Outcome of jwt.decode on the presented bearer token: expired signature,
any other decode failure, or the decoded claims mapping. -/
inductive TokenDecodeOutcome where
  | expired : TokenDecodeOutcome
  | invalid : TokenDecodeOutcome
  | decoded (claims : List (String × Json)) : TokenDecodeOutcome

/-- get_current_user of api/auth.py: missing credentials, expired or invalid
tokens, a missing or non-string or empty sub claim, and an email that no
users row carries all resolve to the 401 exception; otherwise the user row. -/
def get_current_user (credentials : Option TokenDecodeOutcome) (db : DB) :
    Except HTTPException User :=
  match credentials with
  | none => .error unauthorized_exception
  | some .expired => .error unauthorized_exception
  | some .invalid => .error unauthorized_exception
  | some (.decoded claims) =>
      match jsonObjLookup claims "sub" with
      | some (.str email) =>
          if email = "" then .error unauthorized_exception
          else
            match db.users.find? (fun u => u.email == email) with
            | none => .error unauthorized_exception
            | some user => .ok user
      | _ => .error unauthorized_exception

/-- The POST /entries pipeline: FastAPI resolves the identity dependency
first; a 401 short-circuits before create_entry runs, leaving the store
untouched; otherwise create_entry runs for the resolved user. -/
def post_entries_route (credentials : Option TokenDecodeOutcome)
    (payload : EntryCreate) (db : DB) : DB × Nat × Option EntryResponse :=
  match get_current_user credentials db with
  | .error e => (db, e.status_code, none)
  | .ok user =>
      let r := create_entry payload user db
      (r.1, r.2.1, some r.2.2)

/-- The row fields an EntryCreate payload determines, as a predicate. -/
def entryMatchesPayload (e : DailyEntry) (p : EntryCreate) : Prop :=
  e.date = p.date ∧ e.sleep_hours = p.sleep_hours ∧
  e.workout_intensity = p.workout_intensity ∧
  e.supplement_intake = p.supplement_intake ∧
  e.screen_time = p.screen_time ∧ e.stress_level = p.stress_level

/-- Two rows agreeing on every payload-visible field. -/
def entrySameFields (a b : DailyEntry) : Prop :=
  a.date = b.date ∧ a.sleep_hours = b.sleep_hours ∧
  a.workout_intensity = b.workout_intensity ∧
  a.supplement_intake = b.supplement_intake ∧
  a.screen_time = b.screen_time ∧ a.stress_level = b.stress_level

/-- Row-by-row frame condition for an update: each row of the new table is
either the old row unchanged, or keeps the old id, owner and creation
timestamp while carrying exactly the payload fields. -/
def FramePreservingUpdate (payload : EntryCreate) :
    List DailyEntry → List DailyEntry → Prop
  | [], [] => True
  | x :: xs, y :: ys =>
      (y = x ∨
        (y.id = x.id ∧ y.user_id = x.user_id ∧ y.created_at = x.created_at ∧
          entryMatchesPayload y payload)) ∧
      FramePreservingUpdate payload xs ys
  | _, _ => False

/-- The success shape the specification promises for the model service:
a numeric prediction and a nonempty recommendation string. -/
def numericPredictionAndNonemptyRecommendation (j : Json) : Prop :=
  (∃ q : Rat, jsonLookupKey j "prediction" = some (.num q)) ∧
  (∃ s : String, jsonLookupKey j "recommendation" = some (.str s) ∧ s ≠ "")

/-- Fixture: a registered user. -/
def userA : User :=
  { id := 1, email := "a@example.com", hashed_password := "hA"
    created_at := 0, updated_at := 0 }

/-- Fixture: a second registered user. -/
def userB : User :=
  { id := 2, email := "b@example.com", hashed_password := "hB"
    created_at := 0, updated_at := 0 }

/-- Fixture: a stored entry owned by userA. -/
def entryA : DailyEntry :=
  { id := 10, user_id := 1, date := 20260220, sleep_hours := 7
    workout_intensity := "low", supplement_intake := some "omega-3"
    screen_time := mkRat 7 2, stress_level := 2, created_at := 50 }

/-- Fixture: a store holding both users and the one entry of userA. -/
def guardDB : DB :=
  { users := [userA, userB], entries := [entryA], predictions := []
    next_entry_id := 11, now := 60 }

/-- Fixture: the store before any entry exists, with userA registered. -/
def emptyDB : DB :=
  { users := [userA], entries := [], predictions := []
    next_entry_id := 1, now := 100 }

/-- Fixture: the valid payload the orchestration tests of the repository
post to /entries. -/
def orchPayload : EntryCreate :=
  { sleep_hours := mkRat 15 2, workout_intensity := "moderate"
    supplement_intake := some "magnesium, vitamin d"
    screen_time := 4, stress_level := 3, date := 20260220 }

/-- Fixture: a replacement payload for an update. -/
def updatePayload : EntryCreate :=
  { sleep_hours := mkRat 33 4, workout_intensity := "high"
    supplement_intake := some "creatine"
    screen_time := mkRat 5 2, stress_level := 1, date := 20260221 }

/-- Fixture: a well-formed model-service success body. -/
def goodBody : Json :=
  .obj [("prediction", .num (mkRat 41 50)), ("recommendation", .str "hydrate")]

/-- Fixture: a body the client accepts although the prediction is not a
number and the recommendation is empty. -/
def badSuccessBody : Json :=
  .obj [("prediction", .str "oops"), ("recommendation", .str "")]

/-- Fixture: the feature mapping sent for orchPayload. -/
def orchFeatures : List (String × Json) :=
  [("sleep_hours", .num (mkRat 15 2)), ("workout_intensity", .str "moderate"),
   ("supplement_intake", .str "magnesium, vitamin d"),
   ("screen_time", .num 4), ("stress_level", .num 3)]

/-- Fixture: decoded claims of an unexpired token whose subject is no
longer registered. -/
def ghostClaims : List (String × Json) :=
  [("sub", .str "ghost@example.com")]

/-- Fixture: the store update_entry produces for updatePayload on guardDB. -/
def guardDBUpdated : DB :=
  { guardDB with
      entries := updateFirstEntry 10 (applyEntryCreate updatePayload) guardDB.entries }

/-- C4: for every input mapping, call_model_service either returns a
structured payload or fails with exactly one of the four failure kinds of
the client error taxonomy, and configuration-missing (unset or empty
MODEL_SERVICE_URL), timeout, connection-error and response-error (bad
status code, non-JSON body, wrong shape, missing required keys) are each
independently triggerable. -/
theorem c4_model_client_error_taxonomy :
    (∀ (env : Option String) (data : List (String × Json)) (outcome : HttpOutcome),
        (∃ j, call_model_service env data outcome = .ok j) ∨
        (∃ m, call_model_service env data outcome = .error (.configError m)) ∨
        (∃ m, call_model_service env data outcome = .error (.timeoutError m)) ∨
        (∃ m, call_model_service env data outcome = .error (.connectionError m)) ∨
        (∃ m, call_model_service env data outcome = .error (.responseError m))) ∧
    call_model_service none orchFeatures (.response 200 (some goodBody)) =
      .error (.configError "MODEL_SERVICE_URL environment variable is required.") ∧
    call_model_service (some "") orchFeatures (.response 200 (some goodBody)) =
      .error (.configError "MODEL_SERVICE_URL environment variable is required.") ∧
    call_model_service (some "http://model") orchFeatures .timeout =
      .error (.timeoutError "Model Service request timed out.") ∧
    call_model_service (some "http://model") orchFeatures .connectError =
      .error (.connectionError "Failed to connect to Model Service.") ∧
    call_model_service (some "http://model") orchFeatures .otherRequestError =
      .error (.connectionError "Model Service request failed.") ∧
    call_model_service (some "http://model") orchFeatures (.response 500 (some goodBody)) =
      .error (.responseError "Model Service returned status 500.") ∧
    call_model_service (some "http://model") orchFeatures (.response 200 none) =
      .error (.responseError "Model Service returned invalid JSON.") ∧
    call_model_service (some "http://model") orchFeatures (.response 200 (some (.arr []))) =
      .error (.responseError "Model Service response must be a JSON object.") ∧
    call_model_service (some "http://model") orchFeatures
        (.response 200 (some (.obj [("prediction", .num 1)]))) =
      .error (.responseError
        "Model Service response missing prediction or recommendation.") ∧
    call_model_service (some "http://model") orchFeatures (.response 200 (some goodBody)) =
      .ok goodBody := by
  refine ⟨?_, rfl, rfl, rfl, rfl, rfl, rfl, rfl, rfl, rfl, rfl⟩
  intro env data outcome
  cases call_model_service env data outcome with
  | ok j => exact Or.inl ⟨j, rfl⟩
  | error e =>
      cases e with
      | configError m => exact Or.inr (Or.inl ⟨m, rfl⟩)
      | timeoutError m => exact Or.inr (Or.inr (Or.inl ⟨m, rfl⟩))
      | connectionError m => exact Or.inr (Or.inr (Or.inr (Or.inl ⟨m, rfl⟩)))
      | responseError m => exact Or.inr (Or.inr (Or.inr (Or.inr ⟨m, rfl⟩)))

/-- C5 counterexample: a model-service call can succeed while the returned
body carries a non-numeric prediction and an empty recommendation, so a
successful return does not guarantee a numeric prediction and a nonempty
recommendation string. -/
theorem c5_success_shape_counterexample :
    call_model_service (some "http://model") orchFeatures
        (.response 200 (some badSuccessBody)) = .ok badSuccessBody ∧
    ¬ numericPredictionAndNonemptyRecommendation badSuccessBody := by
  refine ⟨rfl, ?_⟩
  rintro ⟨⟨q, hq⟩, -⟩
  have hlook : jsonLookupKey badSuccessBody "prediction" = some (.str "oops") := rfl
  rw [hlook] at hq
  simp at hq

/-- C5 (amended): whenever call_model_service succeeds, the returned value
is a JSON object carrying both a prediction key and a recommendation key;
the client does not validate that the prediction is numeric nor that the
recommendation is a nonempty string. -/
theorem c5_success_is_object_with_required_keys
    (env : Option String) (data : List (String × Json)) (outcome : HttpOutcome)
    (j : Json) (h : call_model_service env data outcome = .ok j) :
    ∃ fields, j = .obj fields ∧
      (jsonObjLookup fields "prediction").isSome = true ∧
      (jsonObjLookup fields "recommendation").isSome = true := by
  unfold call_model_service at h
  repeat' split at h
  all_goals try exact Except.noConfusion h
  rename_i fields hmiss
  simp only [Bool.or_eq_true, not_or, Option.isNone_iff_eq_none] at hmiss
  injection h with hj
  subst hj
  refine ⟨fields, rfl, ?_, ?_⟩
  · cases hp : jsonObjLookup fields "prediction" with
    | none => exact absurd hp hmiss.1
    | some v => rfl
  · cases hr : jsonObjLookup fields "recommendation" with
    | none => exact absurd hr hmiss.2
    | some v => rfl

/-- C5 amended-claim witness: the well-formed success body is accepted and
the amended success shape holds for it. -/
theorem c5_success_witness :
    ∃ fields, goodBody = Json.obj fields ∧
      (jsonObjLookup fields "prediction").isSome = true ∧
      (jsonObjLookup fields "recommendation").isSome = true :=
  c5_success_is_object_with_required_keys (some "http://model") orchFeatures
    (.response 200 (some goodBody)) goodBody rfl

/-- C1 (evaluation of the code at the failing input): for the valid payload
the repository orchestration tests post, create_entry answers 201 echoing
the entry, inserts exactly that one DailyEntry row owned by the caller,
and writes no Prediction row; the handler takes no model-service outcome
at all, so no provider success can ever produce the Prediction row the
claim requires. -/
theorem c1_create_entry_writes_no_prediction :
    entryCreateValid orchPayload = true ∧
    (create_entry orchPayload userA emptyDB).2.1 = 201 ∧
    (create_entry orchPayload userA emptyDB).1.entries =
      [newEntryRow orchPayload userA emptyDB] ∧
    (newEntryRow orchPayload userA emptyDB).user_id = userA.id ∧
    (create_entry orchPayload userA emptyDB).2.2 =
      entryToResponse (newEntryRow orchPayload userA emptyDB) ∧
    (create_entry orchPayload userA emptyDB).1.predictions = [] := by
  refine ⟨by decide, rfl, rfl, rfl, rfl, rfl⟩

/-- C2 (evaluation of the code at the failing input): create_entry takes no
model-service outcome, so a provider timeout cannot influence it; for the
valid payload it answers 201 — never 503 — while keeping the single entry
and writing no Prediction row. -/
theorem c2_create_entry_cannot_answer_503 :
    (create_entry orchPayload userA emptyDB).2.1 = 201 ∧
    (create_entry orchPayload userA emptyDB).2.1 ≠ 503 ∧
    (create_entry orchPayload userA emptyDB).1.entries.length =
      emptyDB.entries.length + 1 ∧
    (create_entry orchPayload userA emptyDB).1.predictions = [] := by
  refine ⟨rfl, by decide, rfl, rfl⟩

/-- C3: the guard shared by the GET, PUT and DELETE entry handlers checks
existence before ownership: a missing id yields the 404 not-found failure
in all three handlers, an existing id owned by another user yields the
distinct 403 forbidden failure in all three handlers, and the owner gets
the entry back. -/
theorem c3_guard_existence_before_ownership
    (entry_id : Nat) (p : EntryCreate) (u : User) (db : DB) :
    (db.entries.find? (fun e => e.id == entry_id) = none →
        get_entry entry_id u db = .error entryNotFoundExc ∧
        update_entry entry_id p u db = .error entryNotFoundExc ∧
        delete_entry entry_id u db = .error entryNotFoundExc) ∧
    (∀ e, db.entries.find? (fun e2 => e2.id == entry_id) = some e →
        (e.user_id ≠ u.id →
            get_entry entry_id u db = .error notOwnerExc ∧
            update_entry entry_id p u db = .error notOwnerExc ∧
            delete_entry entry_id u db = .error notOwnerExc) ∧
        (e.user_id = u.id → get_entry entry_id u db = .ok e)) ∧
    entryNotFoundExc ≠ notOwnerExc := by
  refine ⟨?_, ?_, by decide⟩
  · intro hnone
    refine ⟨?_, ?_, ?_⟩ <;>
      simp [get_entry, update_entry, delete_entry, get_entry_or_404, hnone]
  · intro e he
    constructor
    · intro hne
      refine ⟨?_, ?_, ?_⟩ <;>
        simp [get_entry, update_entry, delete_entry, get_entry_or_404,
          ensure_owner, he, hne]
    · intro heq
      simp [get_entry, get_entry_or_404, ensure_owner, he, heq]

/-- C3 witness: in the fixture store, a missing id yields the 404 failure,
the entry of another owner yields the 403 failure, and the owner retrieves
the row. -/
theorem c3_guard_witness :
    get_entry 999999 userA guardDB = .error entryNotFoundExc ∧
    get_entry 10 userB guardDB = .error notOwnerExc ∧
    get_entry 10 userA guardDB = .ok entryA := by
  have h404 :=
    (c3_guard_existence_before_ownership 999999 updatePayload userA guardDB).1
      (by decide)
  have h403 :=
    ((c3_guard_existence_before_ownership 10 updatePayload userB guardDB).2.1
      entryA (by decide)).1 (by decide)
  have hok :=
    ((c3_guard_existence_before_ownership 10 updatePayload userA guardDB).2.1
      entryA (by decide)).2 (by decide)
  exact ⟨h404.1, h403.1, hok⟩

/-- C6: two sequential identical create_entry calls from the same user each
insert a new row: afterward the table holds the old rows plus two rows with
distinct ids, identical payload-visible fields matching the payload, both
owned by the caller — creation is never deduplicated and not idempotent. -/
theorem c6_double_create_two_distinct_rows
    (payload : EntryCreate) (u : User) (db : DB) :
    ∃ e1 e2 : DailyEntry,
      (create_entry payload u (create_entry payload u db).1).1.entries =
        db.entries ++ [e1, e2] ∧
      e1.id ≠ e2.id ∧ entrySameFields e1 e2 ∧
      entryMatchesPayload e1 payload ∧ entryMatchesPayload e2 payload ∧
      e1.user_id = u.id ∧ e2.user_id = u.id := by
  refine ⟨newEntryRow payload u db,
    newEntryRow payload u (create_entry payload u db).1,
    ?_, ?_, ?_, ?_, ?_, rfl, rfl⟩
  · exact List.append_assoc db.entries _ _
  · show db.next_entry_id ≠ db.next_entry_id + 1
    omega
  · exact ⟨rfl, rfl, rfl, rfl, rfl, rfl⟩
  · exact ⟨rfl, rfl, rfl, rfl, rfl, rfl⟩
  · exact ⟨rfl, rfl, rfl, rfl, rfl, rfl⟩

/-- C7: list_entries returns exactly the stored entries of the caller (a
permutation of the user-filtered table), ordered by date ascending with id
ascending as the tie-break. -/
theorem c7_list_entries_sorted_by_date_then_id (u : User) (db : DB) :
    List.Sorted entryLe (list_entries u db) ∧
    List.Perm (list_entries u db)
      (db.entries.filter (fun e => e.user_id == u.id)) :=
  ⟨List.sorted_insertionSort entryLe _, List.perm_insertionSort entryLe _⟩

/-- C8: a decoded, unexpired bearer token whose subject email matches no
users row is rejected with the 401 exception, and the POST /entries
pipeline then answers 401 and leaves the store untouched — the handler
never runs. -/
theorem c8_deleted_user_rejected_401
    (claims : List (String × Json)) (email : String) (payload : EntryCreate)
    (db : DB)
    (hsub : jsonObjLookup claims "sub" = some (.str email))
    (hne : email ≠ "")
    (hgone : db.users.find? (fun u => u.email == email) = none) :
    get_current_user (some (.decoded claims)) db = .error unauthorized_exception ∧
    unauthorized_exception.status_code = 401 ∧
    post_entries_route (some (.decoded claims)) payload db = (db, 401, none) := by
  have hcur : get_current_user (some (.decoded claims)) db =
      .error unauthorized_exception := by
    unfold get_current_user
    simp only [hsub]
    rw [if_neg hne, hgone]
  refine ⟨hcur, rfl, ?_⟩
  unfold post_entries_route
  rw [hcur]
  rfl

/-- C8 witness: the ghost token subject is absent from the fixture store;
identity resolution answers 401 and the pipeline leaves the store alone. -/
theorem c8_deleted_user_rejected_witness :
    get_current_user (some (.decoded ghostClaims)) guardDB =
      .error unauthorized_exception ∧
    unauthorized_exception.status_code = 401 ∧
    post_entries_route (some (.decoded ghostClaims)) orchPayload guardDB =
      (guardDB, 401, none) :=
  c8_deleted_user_rejected_401 ghostClaims "ghost@example.com" orchPayload
    guardDB rfl (by decide) rfl

/-- Reflexivity of the row-by-row frame relation. -/
theorem framePreservingUpdate_refl (payload : EntryCreate) :
    ∀ l : List DailyEntry, FramePreservingUpdate payload l l
  | [] => trivial
  | _ :: xs => ⟨Or.inl rfl, framePreservingUpdate_refl payload xs⟩

/-- updateFirstEntry with the payload overwrite is a frame-preserving
update of the table. -/
theorem framePreservingUpdate_updateFirstEntry (payload : EntryCreate)
    (eid : Nat) :
    ∀ l : List DailyEntry,
      FramePreservingUpdate payload l
        (updateFirstEntry eid (applyEntryCreate payload) l)
  | [] => trivial
  | x :: xs => by
      unfold updateFirstEntry
      by_cases hx : (x.id == eid) = true
      · rw [if_pos hx]
        exact ⟨Or.inr ⟨rfl, rfl, rfl, rfl, rfl, rfl, rfl, rfl, rfl⟩,
          framePreservingUpdate_refl payload xs⟩
      · rw [if_neg hx]
        exact ⟨Or.inl rfl, framePreservingUpdate_updateFirstEntry payload eid xs⟩

/-- updateFirstEntry keeps the length of the table. -/
theorem updateFirstEntry_length (eid : Nat) (f : DailyEntry → DailyEntry) :
    ∀ l : List DailyEntry, (updateFirstEntry eid f l).length = l.length
  | [] => rfl
  | x :: xs => by
      unfold updateFirstEntry
      by_cases hx : (x.id == eid) = true
      · rw [if_pos hx]
        rfl
      · rw [if_neg hx]
        simp [updateFirstEntry_length eid f xs]

/-- C9: a successful PUT on an entry rewrites only the payload fields of
that row: the users and predictions tables are untouched, the entries
table keeps its length, and every row is either unchanged or keeps its id,
owner and creation timestamp while taking exactly the payload fields. -/
theorem c9_update_entry_preserves_frame
    (entry_id : Nat) (payload : EntryCreate) (u : User) (db db2 : DB)
    (resp : EntryResponse)
    (h : update_entry entry_id payload u db = .ok (db2, resp)) :
    db2.users = db.users ∧ db2.predictions = db.predictions ∧
    db2.entries.length = db.entries.length ∧
    FramePreservingUpdate payload db.entries db2.entries := by
  unfold update_entry at h
  repeat' split at h
  all_goals try exact Except.noConfusion h
  injection h with hpair
  injection hpair with hdb hresp
  subst hdb
  exact ⟨rfl, rfl, updateFirstEntry_length entry_id _ db.entries,
    framePreservingUpdate_updateFirstEntry payload entry_id db.entries⟩

/-- C9 witness: updating the fixture entry with the replacement payload
keeps the users and predictions tables, the table length, and the row
frame. -/
theorem c9_update_entry_frame_witness :
    guardDBUpdated.users = guardDB.users ∧
    guardDBUpdated.predictions = guardDB.predictions ∧
    guardDBUpdated.entries.length = guardDB.entries.length ∧
    FramePreservingUpdate updatePayload guardDB.entries guardDBUpdated.entries :=
  c9_update_entry_preserves_frame 10 updatePayload userA guardDB guardDBUpdated
    (entryToResponse (applyEntryCreate updatePayload entryA)) rfl

/-- C10: every entry in the listing of an authenticated caller carries the
user id of that caller — no row owned by another user ever appears. -/
theorem c10_list_entries_only_owner (u : User) (db : DB) (e : DailyEntry)
    (h : e ∈ list_entries u db) : e.user_id = u.id := by
  unfold list_entries at h
  rw [List.mem_insertionSort] at h
  have hp := (List.mem_filter.1 h).2
  simpa using hp

/-- C10 witness: the fixture listing of userA contains entryA, whose owner
field is the id of userA. -/
theorem c10_list_entries_only_owner_witness : entryA.user_id = userA.id :=
  c10_list_entries_only_owner userA guardDB entryA (by decide)

end Biohacking
